import Mathlib

/-!
Verification of the elvira-ai-agent conversational assistant backend.

The development shallowly embeds the core subsystems of the repository:
the query weight calculator and daily quota governor
(`src/services/queryWeightCalculator.ts`, the concatenated daily limit
manager service), the storage adapters (`src/database/localStore.ts`,
the PostgreSQL adapter), the session registry
(`src/services/sessionManager.ts`) and the conversation orchestrator's
tool dispatch (`functionHandler.ts`) and focus mutation
(`src/openAIClient/openaiClient.ts`).

JavaScript numbers appearing in the weight calculator are embedded as
rationals (every weight produced by the source is exactly representable
and no rounding boundary is crossed by double arithmetic), machine
strings as Lean `String`, JS objects used as string-keyed maps either as
functions `String → Option _` or as insertion-ordered association
lists, and fallible/asynchronous calls as `Except`-valued functions.
Purely diagnostic output (console logging, the human-readable `reason`
string of a weight analysis, row timestamps `created_at`/`updated_at`)
is omitted.
-/

namespace Elvira

/-! ## String helpers

`String.prototype.includes`, `toLowerCase` and `startsWith` are embedded
as character-list functions. -/

/-- Checks that `pat` is an initial segment of `s`. -/
def matchesAt : List Char → List Char → Bool
  | [], _ => true
  | _ :: _, [] => false
  | p :: ps, c :: cs => p == c && matchesAt ps cs

/-- Checks that `pat` occurs contiguously inside `s`
(JS `s.includes(pat)`). -/
def containsSub (pat : List Char) : List Char → Bool
  | [] => pat.isEmpty
  | c :: rest => matchesAt pat (c :: rest) || containsSub pat rest

/-- JS `s.includes(sub)`. -/
def strIncludes (s sub : String) : Bool := containsSub sub.data s.data

/-- JS `s.startsWith(pat)`. -/
def strStartsWith (s pat : String) : Bool := matchesAt pat.data s.data

/-- JS `s.toLowerCase()` (per-character lowering). -/
def strLower (s : String) : String := ⟨s.data.map Char.toLower⟩

/-! ## Query weight calculator (`queryWeightCalculator.ts`) -/

/-- Library-related keywords that indicate lower-weight queries. -/
def LIBRARY_KEYWORDS : List String :=
  ["book", "entry", "title", "author", "category", "published", "language",
   "summary", "catalog", "readium", "literature", "library", "search",
   "find", "list", "filter", "query entries", "get entries", "display books"]

/-- Complex operation indicators that suggest higher-weight queries. -/
def COMPLEX_KEYWORDS : List String :=
  ["analysis", "synthesis", "summarize", "compare", "contrast", "explain",
   "calculate", "solve", "optimize", "design", "create", "generate",
   "write", "compose", "translate"]

/-- Categories of the weight analysis. -/
inductive QueryCategory where
  | library_related
  | other
  | complex
deriving DecidableEq, Repr

/-- Result of `analyzeQueryComplexity` (the diagnostic `reason` string is
omitted). -/
structure QueryWeightAnalysis where
  weight : ℚ
  category : QueryCategory
deriving DecidableEq, Repr

/-- Number of library keywords occurring in the lowercased query
(the `libraryScore` loop of `analyzeQueryComplexity`). -/
def libraryScoreOf (query : String) : Nat :=
  (LIBRARY_KEYWORDS.filter (fun k => strIncludes (strLower query) k)).length

/-- Number of complex-operation keywords occurring in the lowercased query
(the `complexScore` loop of `analyzeQueryComplexity`). -/
def complexScoreOf (query : String) : Nat :=
  (COMPLEX_KEYWORDS.filter (fun k => strIncludes (strLower query) k)).length

/-- Embeds `analyzeQueryComplexity(query)` from `queryWeightCalculator.ts`. -/
def analyzeQueryComplexity (query : String) : QueryWeightAnalysis :=
  let libraryScore := libraryScoreOf query
  let complexScore := complexScoreOf query
  if libraryScore > complexScore then
    ⟨1, .library_related⟩
  else if complexScore > libraryScore ∧ complexScore > 0 then
    ⟨min 3 (3/2 + (complexScore : ℚ) * (3/10)), .complex⟩
  else if query.length > 500 then
    ⟨3/2, .other⟩
  else
    ⟨1, .other⟩

/-- Embeds `calculateQueryWeight(query)`. -/
def calculateQueryWeight (query : String) : ℚ :=
  (analyzeQueryComplexity query).weight

/-- Embeds `Math.ceil(weight)` as used by `recordMessageUsage` to price a message. -/
def messagesUsedFor (query : String) : Nat :=
  ⌈calculateQueryWeight query⌉.toNat

/-- Modelled from the spec: the weight classification rule as worded in
section 4.3, as a function of the catalog-vocabulary hit count, the
complex-vocabulary hit count and the query length. Compared against the
source-derived `analyzeQueryComplexity`. -/
def specWeightClassifier (catalogHits complexHits queryLen : Nat) : QueryWeightAnalysis :=
  if catalogHits > complexHits then
    ⟨1, .library_related⟩
  else if complexHits > catalogHits ∧ complexHits > 0 then
    ⟨min 3 (3/2 + (complexHits : ℚ) * (3/10)), .complex⟩
  else if queryLen > 500 then
    ⟨3/2, .other⟩
  else
    ⟨1, .other⟩

/-! ## Quota governor (`recordMessageUsage` of the daily limit manager) -/

/-- A `daily_limits` row (timestamps omitted). -/
structure DailyLimit where
  id : String
  user_id : String
  date : String
  messages_used : Nat
  messages_limit : Nat
  tokens_used : Nat
  tokens_limit : Nat
deriving DecidableEq, Repr

/-- Configured default limits (`getDailyLimitConfig`). -/
structure DailyLimitConfig where
  messagesPerDay : Nat
  tokensPerDay : Nat
deriving DecidableEq, Repr

/-- Embeds `createDailyLimit(userId, date, messagesLimit, tokensLimit)`: a fresh
row with zero usage (`newId` stands for the generated uuid). -/
def createDailyLimit (newId userId date : String) (messagesLimit tokensLimit : Nat) : DailyLimit :=
  ⟨newId, userId, date, 0, messagesLimit, 0, tokensLimit⟩

/-- Embeds `incrementDailyLimitUsage(id, messages, tokens)`: adds the given
amounts to the row's usage counters. -/
def incrementDailyLimitUsage (limit : DailyLimit) (messages tokens : Nat) : DailyLimit :=
  { limit with
      messages_used := limit.messages_used + messages
      tokens_used := limit.tokens_used + tokens }

/-- Embeds `recordMessageUsage(userId, query, tokensUsed)`: looks up today's row
(`stored`), lazily creating it from the configured defaults, prices the
query at `ceil(weight)` messages, denies if either budget would be
exceeded, otherwise increments usage. Returns the admission flag together
with the resulting row (the database state). -/
def recordMessageUsage (stored : Option DailyLimit) (config : DailyLimitConfig)
    (newId userId today : String) (query : String) (tokensUsed : Nat) :
    Bool × DailyLimit :=
  let limit := match stored with
    | some l => l
    | none => createDailyLimit newId userId today config.messagesPerDay config.tokensPerDay
  let messagesUsed := messagesUsedFor query
  if limit.messages_used + messagesUsed > limit.messages_limit then
    (false, limit)
  else if limit.tokens_used + tokensUsed > limit.tokens_limit then
    (false, limit)
  else
    (true, incrementDailyLimitUsage limit messagesUsed tokensUsed)

/-! ## Theorems: weight classifier (C5, C10) and quota recording (C2) -/

/-- C5: the classifier returns weight 1.0 / `library_related` when catalog
keyword hits strictly dominate, `min(3.0, 1.5 + 0.3·hits)` / `complex`
when complex hits strictly dominate, weight 1.5 when neither dominates and
the query exceeds 500 characters, and weight 1.0 otherwise; moreover
"find me books about AI" weighs 1.0 and "write and compose an essay
comparing two authors" weighs at least 1.5 with category `complex`. -/
theorem analyzeQueryComplexity_matches_spec (query : String) :
    analyzeQueryComplexity query =
      specWeightClassifier (libraryScoreOf query) (complexScoreOf query) query.length ∧
    analyzeQueryComplexity "find me books about AI" = ⟨1, .library_related⟩ ∧
    (analyzeQueryComplexity "write and compose an essay comparing two authors").weight = 21/10 ∧
    (3/2 : ℚ) ≤ (analyzeQueryComplexity "write and compose an essay comparing two authors").weight ∧
    (analyzeQueryComplexity "write and compose an essay comparing two authors").category =
      .complex := by
  have hl : libraryScoreOf "write and compose an essay comparing two authors" = 1 := by decide
  have hc : complexScoreOf "write and compose an essay comparing two authors" = 2 := by decide
  have hw : analyzeQueryComplexity "write and compose an essay comparing two authors" =
      ⟨21/10, .complex⟩ := by
    simp only [analyzeQueryComplexity, hl, hc]
    norm_num [min_def]
  refine ⟨rfl, ?_, ?_, ?_, ?_⟩
  · have hl2 : libraryScoreOf "find me books about AI" = 2 := by decide
    have hc2 : complexScoreOf "find me books about AI" = 0 := by decide
    simp [analyzeQueryComplexity, hl2, hc2]
  · rw [hw]
  · rw [hw]; norm_num
  · rw [hw]

/-- Shared bound: the ceiling of a rational in `(0, 3]` lands in `{1,2,3}`. -/
theorem ceil_toNat_bounds {w : ℚ} (h1 : 0 < w) (h2 : w ≤ 3) :
    1 ≤ ⌈w⌉.toNat ∧ ⌈w⌉.toNat ≤ 3 := by
  have hpos : 0 < ⌈w⌉ := Int.ceil_pos.mpr h1
  have hle : ⌈w⌉ ≤ 3 := by
    have := Int.ceil_le_ceil h2
    simpa using this
  omega

/-- C10: the message cost `ceil(weight)` charged by `recordMessageUsage`
is always between 1 and 3 message units. -/
theorem messagesUsedFor_bounds (query : String) :
    1 ≤ messagesUsedFor query ∧ messagesUsedFor query ≤ 3 := by
  unfold messagesUsedFor calculateQueryWeight analyzeQueryComplexity
  apply ceil_toNat_bounds <;> dsimp only <;> split_ifs with h1 h2 h3
  · norm_num
  · have hc : (1 : ℚ) ≤ (complexScoreOf query : ℚ) := by
      exact_mod_cast Nat.one_le_iff_ne_zero.mpr (Nat.pos_iff_ne_zero.mp h2.2)
    have : (3/2 : ℚ) ≤ 3/2 + (complexScoreOf query : ℚ) * (3/10) := by
      nlinarith
    have hmin : (3/2 : ℚ) ≤ min 3 (3/2 + (complexScoreOf query : ℚ) * (3/10)) := by
      exact le_min (by norm_num) this
    linarith
  · norm_num
  · norm_num
  · norm_num
  · exact min_le_left _ _
  · norm_num
  · norm_num

/-- C2: `recordMessageUsage` admits a message exactly when both
`used + ceil(weight) ≤ messages_limit` and
`tokens_used + tokensUsed ≤ tokens_limit` hold on today's row; on denial
the row is unchanged, on admission it is incremented by exactly
`ceil(weight)` messages and `tokensUsed` tokens. -/
theorem recordMessageUsage_admission (limit : DailyLimit) (config : DailyLimitConfig)
    (newId userId today query : String) (tokensUsed : Nat) :
    recordMessageUsage (some limit) config newId userId today query tokensUsed =
      if limit.messages_used + messagesUsedFor query ≤ limit.messages_limit ∧
         limit.tokens_used + tokensUsed ≤ limit.tokens_limit then
        (true, { limit with
                   messages_used := limit.messages_used + messagesUsedFor query
                   tokens_used := limit.tokens_used + tokensUsed })
      else
        (false, limit) := by
  unfold recordMessageUsage incrementDailyLimitUsage
  dsimp only
  split_ifs <;> first | rfl | omega

/-! ## Storage port: data model -/

/-- Sender role of a persisted message. -/
inductive Sender where
  | user
  | agent
deriving DecidableEq, Repr

/-- A persisted `Message` (`accounts.ts` database-era type). Record-valued
`bookCatalogs` is embedded as an association list. -/
structure Message where
  id : String
  chatId : String
  sender : Sender
  text : String
  timestamp : String
  entryId : Option String := none
  msg_id : Option String := none
  userId : Option String := none
  tokensUsed : Nat := 0
  bookIds : Option (List String) := none
  bookCatalogs : Option (List (String × String)) := none
deriving DecidableEq, Repr

/-- Optional fields of `logMessage`. -/
structure LogOpts where
  entryId : Option String := none
  msg_id : Option String := none
  userId : Option String := none
  tokensUsed : Option Nat := none
  bookIds : Option (List String) := none
  bookCatalogs : Option (List (String × String)) := none
deriving DecidableEq, Repr

/-- Point update of a JS object used as a string-keyed map. -/
def setFun {β : Type} (m : String → Option β) (k : String) (v : β) : String → Option β :=
  fun k' => if k' = k then some v else m k'

/-- JS `delete m[k]`. -/
def delFun {β : Type} (m : String → Option β) (k : String) : String → Option β :=
  fun k' => if k' = k then none else m k'

/-! ## File-backed store (`localStore.ts`) -/

/-- Chat metadata held in `chatsMetadata` (the local store). -/
structure ChatMeta where
  chatId : String
  userId : String
  startedAt : String
  title : Option String
  messageCount : Nat
  totalTokens : Nat
deriving DecidableEq, Repr

/-- The local store's in-memory state: `chats` and `chatsMetadata`
(disk persistence of the same data is omitted). -/
structure LocalStore where
  chatsMetadata : String → Option ChatMeta
  chats : String → Option (List Message)

/-- The store with no chats (module initialisation on an empty disk). -/
def LocalStore.empty : LocalStore :=
  ⟨fun _ => none, fun _ => none⟩

/-- Embeds `createChatLocal(chatId, userId, title)`: rejects falsy ids, returns
the existing metadata when the chat id is present, otherwise registers
fresh metadata (`now` stands for `new Date().toISOString()`). -/
def createChatLocal (st : LocalStore) (now : String) (chatId userId : String)
    (title : Option String) : Option ChatMeta × LocalStore :=
  if chatId = "" ∨ userId = "" then (none, st)
  else
    match st.chatsMetadata chatId with
    | some meta => (some meta, st)
    | none =>
      let meta : ChatMeta := ⟨chatId, userId, now, title, 0, 0⟩
      (some meta,
        { chatsMetadata := setFun st.chatsMetadata chatId meta
          chats := setFun st.chats chatId ((st.chats chatId).getD []) })

/-- JS `text.substring(0, n)`. -/
def strTake (s : String) (n : Nat) : String := ⟨s.data.take n⟩

/-- Embeds `logMessageLocal(chatId, sender, text, opts)`: appends a message
stamped `now` (with generated id `newMsgId`) to the chat's list and
updates the chat metadata aggregates. -/
def logMessageLocal (st : LocalStore) (newMsgId now : String) (chatId : String)
    (sender : Sender) (text : String) (opts : LogOpts) : Option Message × LocalStore :=
  if chatId = "" then (none, st)
  else
    let msg : Message :=
      { id := newMsgId, chatId := chatId, sender := sender, text := text,
        timestamp := now, entryId := opts.entryId, msg_id := opts.msg_id,
        userId := opts.userId, tokensUsed := opts.tokensUsed.getD 0,
        bookIds := opts.bookIds, bookCatalogs := opts.bookCatalogs }
    let st1 : LocalStore :=
      { st with chats := setFun st.chats chatId (((st.chats chatId).getD []) ++ [msg]) }
    let st2 : LocalStore :=
      match st.chatsMetadata chatId with
      | none => st1
      | some meta =>
        let meta1 : ChatMeta :=
          { meta with
              messageCount := meta.messageCount + 1
              totalTokens := meta.totalTokens + opts.tokensUsed.getD 0 }
        let meta2 : ChatMeta :=
          if (meta1.title = none ∨ meta1.title = some "") ∧ sender = .user ∧
             meta1.messageCount = 1 then
            { meta1 with title := some (strTake text 100) }
          else meta1
        { st1 with chatsMetadata := setFun st.chatsMetadata chatId meta2 }
    (some msg, st2)

/-- Embeds `getChatHistoryLocal(chatId)`. -/
def getChatHistoryLocal (st : LocalStore) (chatId : String) : List Message :=
  (st.chats chatId).getD []

/-- Embeds `getFullChatHistoryLocal(chatId)` (same projection). -/
def getFullChatHistoryLocal (st : LocalStore) (chatId : String) : List Message :=
  (st.chats chatId).getD []

/-- Embeds `clearChatHistoryLocal(chatId)`. -/
def clearChatHistoryLocal (st : LocalStore) (chatId : String) : LocalStore :=
  { st with chats := delFun st.chats chatId }

/-! ## Relational store (`PostgresDatabaseAdapter`)

Modelled from the SQL statements in the adapter source: the `chats` table
as a map from chat id (its primary key) to row, the `messages` table as a
bag of rows. -/

/-- A `chats` table row. -/
structure PgChatRow where
  id : String
  user_id : String
  title : Option String
  started_at : String
  is_active : Bool
deriving DecidableEq, Repr

/-- The chat identity projection returned by `createChat`. -/
structure ChatIdentity where
  chatId : String
  userId : String
  startedAt : String
deriving DecidableEq, Repr

/-- Embeds `PostgresDatabaseAdapter.createChat`: `INSERT ... ON CONFLICT (id) DO
NOTHING RETURNING ...`, falling back to fetching the existing row when the
insert inserted nothing. -/
def createChatPg (tbl : String → Option PgChatRow) (now : String) (chatId userId : String)
    (title : Option String) : Option ChatIdentity × (String → Option PgChatRow) :=
  match tbl chatId with
  | some row => (some ⟨row.id, row.user_id, row.started_at⟩, tbl)
  | none =>
    (some ⟨chatId, userId, now⟩, setFun tbl chatId ⟨chatId, userId, title, now, true⟩)

/-- Embeds `PostgresDatabaseAdapter.logMessage`: inserts a message row stamped
`CURRENT_TIMESTAMP` (reusing the `Message` shape for the row; the unused
`weight` column is omitted). -/
def logMessagePg (tbl : List Message) (newMsgId now chatId : String) (sender : Sender)
    (text : String) (opts : LogOpts) : List Message :=
  tbl ++ [{ id := newMsgId, chatId := chatId, sender := sender, text := text,
            timestamp := now, entryId := opts.entryId, msg_id := opts.msg_id,
            userId := opts.userId, tokensUsed := opts.tokensUsed.getD 0,
            bookIds := opts.bookIds, bookCatalogs := opts.bookCatalogs }]

/-- Boolean timestamp comparison used to model `ORDER BY timestamp ASC`. -/
def tsLe (a b : Message) : Bool := decide (a.timestamp ≤ b.timestamp)

/-- Embeds `PostgresDatabaseAdapter.getChatHistory`: `SELECT ... WHERE chat_id =
$1 ORDER BY timestamp ASC` (also `getFullChatHistory`, which delegates to
it). -/
def getChatHistoryPg (tbl : List Message) (chatId : String) : List Message :=
  (tbl.filter (fun m => m.chatId = chatId)).mergeSort tsLe

/-! ## Theorems: chat creation idempotence (C6) and history ordering (C7) -/

/-- C6: calling `createChat` twice with the same chat id returns the same
chat identity the second time, does not error, and leaves the store
unchanged (no duplicate record), on both the file-backed and the
relational adapter. -/
theorem createChat_idempotent (st : LocalStore) (tbl : String → Option PgChatRow)
    (now now2 chatId userId : String) (title title2 : Option String) :
    ((createChatLocal (createChatLocal st now chatId userId title).2
        now2 chatId userId title2).1 =
      (createChatLocal st now chatId userId title).1 ∧
     (createChatLocal (createChatLocal st now chatId userId title).2
        now2 chatId userId title2).2 =
      (createChatLocal st now chatId userId title).2) ∧
    ((createChatPg (createChatPg tbl now chatId userId title).2
        now2 chatId userId title2).1 =
      (createChatPg tbl now chatId userId title).1 ∧
     (createChatPg (createChatPg tbl now chatId userId title).2
        now2 chatId userId title2).2 =
      (createChatPg tbl now chatId userId title).2) := by
  constructor
  · by_cases hcu : chatId = "" ∨ userId = ""
    · simp [createChatLocal, hcu]
    · cases hmeta : st.chatsMetadata chatId with
      | none => simp [createChatLocal, hcu, hmeta, setFun]
      | some meta => simp [createChatLocal, hcu, hmeta]
  · cases htbl : tbl chatId with
    | none => simp [createChatPg, htbl, setFun]
    | some row => simp [createChatPg, htbl]

/-- A message list ordered by timestamp ascending. -/
def SortedByTimestamp (l : List Message) : Prop :=
  l.Pairwise (fun a b => a.timestamp ≤ b.timestamp)

/-- C7: history queries return timestamp-ascending lists on both adapters:
the relational `getChatHistory` sorts unconditionally; on the file-backed
store, every store whose chat lists are timestamp-sorted keeps that
property when `logMessageLocal` appends a message stamped no earlier than
the stored ones, so every `getChatHistoryLocal` / `getFullChatHistoryLocal`
result is sorted (appends use the current wall clock, which is monotone
across appends). -/
theorem chatHistory_sorted (st : LocalStore) (newMsgId now chatId : String)
    (sender : Sender) (text : String) (opts : LogOpts)
    (hsorted : ∀ cid, SortedByTimestamp (getChatHistoryLocal st cid))
    (hclock : ∀ m ∈ getChatHistoryLocal st chatId, m.timestamp ≤ now) :
    (∀ cid, SortedByTimestamp
      (getChatHistoryLocal (logMessageLocal st newMsgId now chatId sender text opts).2 cid)) ∧
    (∀ cid, getFullChatHistoryLocal st cid = getChatHistoryLocal st cid) ∧
    (∀ tbl cid, SortedByTimestamp (getChatHistoryPg tbl cid)) := by
  refine ⟨?_, fun _ => rfl, ?_⟩
  · intro cid
    by_cases hchat : chatId = ""
    · simpa [logMessageLocal, hchat] using hsorted cid
    · by_cases hcid : cid = chatId
      · subst hcid
        have hbase := hsorted cid
        simp only [logMessageLocal, hchat, if_false, getChatHistoryLocal] at *
        rcases hmeta : st.chatsMetadata cid with _ | meta <;>
          simp only [hmeta, setFun, if_true, ite_true, Option.getD_some] <;>
          · rw [SortedByTimestamp, List.pairwise_append]
            exact ⟨hbase, List.pairwise_singleton _ _,
              fun a ha b hb => by
                simp only [List.mem_singleton] at hb
                subst hb
                exact hclock a ha⟩
      · have hbase := hsorted cid
        simp only [logMessageLocal, hchat, if_false, getChatHistoryLocal] at *
        rcases hmeta : st.chatsMetadata chatId with _ | meta <;>
          simpa [hmeta, setFun, hcid] using hbase
  · intro tbl cid
    have htrans : ∀ a b c : Message, tsLe a b → tsLe b c → tsLe a c := by
      intro a b c hab hbc
      simp only [tsLe, decide_eq_true_eq] at *
      exact le_trans hab hbc
    have htotal : ∀ a b : Message, tsLe a b || tsLe b a := by
      intro a b
      simp only [tsLe, Bool.or_eq_true, decide_eq_true_eq]
      exact le_total _ _
    have h := List.sorted_mergeSort htrans htotal (tbl.filter (fun m => m.chatId = cid))
    exact h.imp (fun hab => by simpa [tsLe] using hab)

/-- Witness for C7 at a concrete store: one append to the empty store and
one two-row relational table. -/
theorem chatHistory_sorted_witness :
    SortedByTimestamp (getChatHistoryLocal
      (logMessageLocal LocalStore.empty "m1" "2024-01-02T00:00:00Z" "c1" .user "hi" {}).2 "c1") ∧
    SortedByTimestamp (getChatHistoryPg
      [{ id := "m2", chatId := "c1", sender := .agent, text := "b",
         timestamp := "2024-01-03T00:00:00Z" },
       { id := "m3", chatId := "c1", sender := .user, text := "a",
         timestamp := "2024-01-01T00:00:00Z" }] "c1") := by
  have h := chatHistory_sorted LocalStore.empty "m1" "2024-01-02T00:00:00Z" "c1" .user "hi" {}
    (by intro cid; simp [getChatHistoryLocal, LocalStore.empty, SortedByTimestamp])
    (by intro m hm; simp [getChatHistoryLocal, LocalStore.empty] at hm)
  exact ⟨h.1 "c1", h.2.2 _ "c1"⟩

/-! ## Conversation orchestrator state (`openaiClient.ts`)

The transcript turns relevant to replay and resumption: user input turns
and completed assistant message turns (`ResponseInput` items). -/

/-- A transcript turn. -/
inductive Turn where
  | userTurn (text : String)
  | assistantTurn (id : String) (text : String)
deriving DecidableEq, Repr

/-- The mutable state of an `OpenAIClient` instance. -/
structure Session where
  entryId : Option String
  catalogId : Option String
  chatHistory : List Turn
  lastTokensUsed : Nat
  userId : String
deriving DecidableEq, Repr

/-- Embeds `OpenAIClient.setEntryId`. -/
def setEntryId (s : Session) (entryId : Option String) : Session :=
  { s with entryId := entryId }

/-- Embeds `OpenAIClient.getEntryId`. -/
def getEntryId (s : Session) : Option String := s.entryId

/-- JS template interpolation of a nullable string (`null` prints as
"null"). -/
def jsTemplateOpt (o : Option String) : String := o.getD "null"

/-- Embeds `OpenAIClient.getSystemPrompt`: the fixed system instruction,
parameterized by the current focus (`entryId`, `catalogId`). -/
def getSystemPrompt (s : Session) : String :=
  "You are Elvira, a helpful library assistant bot.\n\nYour role: Guide users in exploring library entries, summarizing them, and making recommendations.\nWhen recommending books, use the displayBooks function.\nKeep messages short and brief - answer only what was asked.\n\nAssistant Entry ID: "
  ++ jsTemplateOpt s.entryId
  ++ "\nCatalog ID: "
  ++ s.catalogId.getD "N/A - no entry context"
  ++ "\n\nIf an Entry ID is provided:\n- Focus responses on that specific entry and related content (might be refered to as book, article, item, entry or similar in the conversation)\n- Continue discussing it unless the user changes the topic\n- When user asks \"What\x27s the book about?\", use getEntryDetails(entryId, catalogId) and return the response.\n\nAvailable Tools:\n- getEntryDetails(id, catalogId) – Get details for a specific entry. Requires both id and catalogId.\n- getEntries – Browse entries with pagination and filters. Returns entries with catalog_id field.\n- displayBooks(books) – Show books in UI. Each book must have \x7bid, catalogId\x7d.\n\nCRITICAL - CATALOG HANDLING:\nNever just list names or IDs of books, use displayBooks instead!\nWhen getEntries returns results, each entry has a \"catalog_id\" field containing the catalog UUID.\nWhen calling displayBooks, pass books array like: [\x7bid: \"book1\", catalogId: \"uuid-xxx\"\x7d, \x7bid: \"book2\", catalogId: \"uuid-yyy\"\x7d]\n\nIMPORTANT: Use the catalog_id UUID from the entry, NOT any slug or string identifier.\nEach book can belong to a different catalog. Extract the catalog_id UUID from the entry and pass it with that book\x27s id.\n\nWhen user asks about a book:\n1. Find the book ID in conversation history\n2. Look for the logged message: \"[Displayed X book(s) with IDs: ...] [Book Catalogs: \x7b...\x7d]\"\n3. Parse the Book Catalogs JSON to get the catalogId for that bookId\n4. Call getEntryDetails(bookId, catalogId) with the correct catalogId\n\nExample conversation history:\n- Assistant: \"[Displayed 2 book(s) with IDs: b1, b2] [Book Catalogs: \x7b\\\"b1\\\":\\\"uuid-aaa-111\\\",\\\"b2\\\":\\\"uuid-bbb-222\\\"\x7d]\"\n- User: \"Tell me about the first book\"\n- You: Parse JSON → b1 is in catalog uuid-aaa-111 → getEntryDetails(\"b1\", \"uuid-aaa-111\")\n\nIMPORTANT: Always extract catalogId UUID from the [Book Catalogs: \x7b...\x7d] JSON in the conversation history.\n\nTool Usage:\n- Use filters to narrow results based on user query\n- If no results, broaden the search and try again\n- Try searching in Slovak and English\n- Use title filter only, unless user specifies otherwise\n- Don\x27t filter by summary/description unless explicitly requested\n\nFor non-library queries, politely state you only help with library-related inquiries.\nDon\x27t mention AI or language models. Don\x27t help with coding or technical questions.\nYou may use markdown formatting for readability. Don\x27t send user links to the library catalog or any other links.\n"

/-! ## Session registry (`sessionManager.ts`)

JS objects `chatSessions` and `messagesQueues` are embedded as
insertion-ordered association lists with unique keys, so that
`Object.entries` iteration order is represented. -/

/-- Queue item discriminator. -/
inductive QueueType where
  | message
  | entries
  | chunk
  | error
  | done
deriving DecidableEq, Repr

/-- The `data` payload of a queue item (string or string array). -/
inductive QueueData where
  | str (s : String)
  | ids (l : List String)
deriving DecidableEq, Repr

/-- A `MessageQueueItem`. -/
structure MessageQueueItem where
  type : QueueType
  data : QueueData
  msg_id : Option String := none
  bookCatalogs : Option (List (String × String)) := none
deriving DecidableEq, Repr

/-- Association-list lookup (`obj[k]`). -/
def lookupA {β : Type} : List (String × β) → String → Option β
  | [], _ => none
  | p :: rest, k => if p.1 = k then some p.2 else lookupA rest k

/-- Association-list assignment (`obj[k] = v`): overwrites in place, or
appends a new key. -/
def setA {β : Type} (l : List (String × β)) (k : String) (v : β) : List (String × β) :=
  if (lookupA l k).isSome then
    l.map (fun p => if p.1 = k then (k, v) else p)
  else
    l ++ [(k, v)]

/-- Association-list deletion (`delete obj[k]`). -/
def delA {β : Type} (l : List (String × β)) (k : String) : List (String × β) :=
  l.filter (fun p => decide (¬ p.1 = k))

/-- The shared mutable state: the registry's two maps plus the storage
backend (instantiated with the file-backed store). -/
structure SysState where
  chatSessions : List (String × Session)
  messagesQueues : List (String × List MessageQueueItem)
  db : LocalStore

/-- Embeds `hasSession(chatId)`. -/
def hasSession (st : SysState) (chatId : String) : Bool :=
  (lookupA st.chatSessions chatId).isSome

/-- Embeds `getSession(chatId)`. -/
def getSession (st : SysState) (chatId : String) : Option Session :=
  lookupA st.chatSessions chatId

/-- Embeds `getMessageQueue(chatId)`. -/
def getMessageQueue (st : SysState) (chatId : String) : Option (List MessageQueueItem) :=
  lookupA st.messagesQueues chatId

/-- Embeds `getMessageQueueLength(chatId)`. -/
def getMessageQueueLength (st : SysState) (chatId : String) : Nat :=
  ((lookupA st.messagesQueues chatId).map List.length).getD 0

/-- JS `a || b` on nullable strings (`null`, `undefined` and `""` are
falsy). -/
def jsOrOpt (a b : Option String) : Option String :=
  if a = none ∨ a = some "" then b else a

/-- The focus mutator applied to a registered session
(`getSession(chatId).setEntryId(entryId)` as the send-chat route does). -/
def setSessionEntryId (st : SysState) (chatId : String) (entryId : Option String) : SysState :=
  match lookupA st.chatSessions chatId with
  | none => st
  | some s => { st with chatSessions := setA st.chatSessions chatId (setEntryId s entryId) }

/-- The `messageListener` closure created by `createSession`: pushes a
`message` item onto `messagesQueues[chatId]` — a JS `TypeError` when that
queue has been deleted — then fire-and-forget logs the agent message.
`entryId0` and `userId0` are the closure-captured creation arguments,
`newMsgId`/`now` the generated message id and timestamp. -/
def messageListener (st : SysState) (chatId : String) (entryId0 : Option String)
    (userId0 newMsgId now : String) (message : String) (msg_id : Option String) :
    Except String SysState :=
  match lookupA st.messagesQueues chatId with
  | none => .error "TypeError: Cannot read properties of undefined (reading \x27push\x27)"
  | some q =>
    let q1 := q ++ [{ type := .message, data := .str message : MessageQueueItem }]
    let st1 : SysState := { st with messagesQueues := setA st.messagesQueues chatId q1 }
    let sessEntry : Option String :=
      match lookupA st1.chatSessions chatId with
      | none => none
      | some s => getEntryId s
    let eid : Option String := jsOrOpt sessEntry (jsOrOpt entryId0 none)
    .ok { st1 with db :=
      (logMessageLocal st1.db newMsgId now chatId .agent message
        { userId := some userId0, msg_id := msg_id, entryId := eid }).2 }

/-- JSON serialization of a `Record<string, string>` (keys are uuid-like;
escaping is not needed and omitted). -/
def stringifyStrRecord (l : List (String × String)) : String :=
  "\x7b" ++ String.intercalate "," (l.map (fun p => "\"" ++ p.1 ++ "\":\"" ++ p.2 ++ "\"")) ++ "\x7d"

/-- The display text logged for a book display:
`[Displayed N book(s) with IDs: ...] [Book Catalogs: {...}]`. -/
def displayBooksText (bookIds : List String) (bookCatalogs : Option (List (String × String))) :
    String :=
  "[Displayed " ++ toString bookIds.length ++ " book(s) with IDs: "
    ++ String.intercalate ", " bookIds ++ "] [Book Catalogs: "
    ++ (match bookCatalogs with
        | some bc => stringifyStrRecord bc
        | none => "\x7b\x7d") ++ "]"

/-- The `displayBooksListener` closure created by `createSession`. -/
def displayBooksListener (st : SysState) (chatId : String) (entryId0 : Option String)
    (userId0 newMsgId now : String) (bookIds : List String)
    (bookCatalogs : Option (List (String × String))) : Except String SysState :=
  match lookupA st.messagesQueues chatId with
  | none => .error "TypeError: Cannot read properties of undefined (reading \x27push\x27)"
  | some q =>
    let q1 := q ++
      [{ type := .entries, data := .ids bookIds, bookCatalogs := bookCatalogs : MessageQueueItem }]
    let st1 : SysState := { st with messagesQueues := setA st.messagesQueues chatId q1 }
    let sessEntry : Option String :=
      match lookupA st1.chatSessions chatId with
      | none => none
      | some s => getEntryId s
    let eid : Option String := jsOrOpt sessEntry (jsOrOpt entryId0 none)
    .ok { st1 with db :=
      (logMessageLocal st1.db newMsgId now chatId .agent (displayBooksText bookIds bookCatalogs)
        { userId := some userId0, entryId := eid,
          bookIds := some bookIds, bookCatalogs := bookCatalogs }).2 }

/-- The `chunkListener` closure created by `createSession`. -/
def chunkListener (st : SysState) (chatId : String) (msg_id chunk : String) :
    Except String SysState :=
  match lookupA st.messagesQueues chatId with
  | none => .error "TypeError: Cannot read properties of undefined (reading \x27push\x27)"
  | some q =>
    let q1 := q ++
      [{ type := .chunk, data := .str chunk, msg_id := some msg_id : MessageQueueItem }]
    .ok { st with messagesQueues := setA st.messagesQueues chatId q1 }

/-! ## History replay (`loadChatHistoryIntoSession`) -/

/-- The synthesized provider-compatible id: `msg_` followed by the stored
row id with every dash stripped. -/
def synthesizedId (msg : Message) : String :=
  "msg_" ++ ⟨msg.id.data.filter (fun c => c ≠ '-')⟩

/-- The id given to a replayed assistant turn: the stored `msg_id` when it
is present and starts with `msg_`, a synthesized one otherwise. -/
def replayAssistantId (msg : Message) : String :=
  match msg.msg_id with
  | none => synthesizedId msg
  | some mid => if mid = "" ∨ ¬ strStartsWith mid "msg_" then synthesizedId msg else mid

/-- The replayed assistant text: re-injects stored item-display metadata
when the stored text does not already embed it. -/
def replayAssistantText (msg : Message) : String :=
  match msg.bookIds, msg.bookCatalogs with
  | some bids, some bc =>
    if bids.length > 0 then
      if strIncludes msg.text "[Book Catalogs:" then msg.text
      else if strIncludes msg.text "[Displayed" then
        msg.text ++ " [Book Catalogs: " ++ stringifyStrRecord bc ++ "]"
      else
        msg.text ++ "\n\n[Displayed " ++ toString bids.length ++ " book(s) with IDs: "
          ++ String.intercalate ", " bids ++ "] [Book Catalogs: " ++ stringifyStrRecord bc ++ "]"
    else msg.text
  | _, _ => msg.text

/-- One persisted message converted to a transcript turn. -/
def replayMessage (msg : Message) : Turn :=
  match msg.sender with
  | .user => .userTurn msg.text
  | .agent => .assistantTurn (replayAssistantId msg) (replayAssistantText msg)

/-- The queue items repopulated for one replayed message (item-display
messages re-enter the event queue). -/
def replayQueueItems (msg : Message) : List MessageQueueItem :=
  match msg.sender with
  | .user => []
  | .agent =>
    match msg.bookIds with
    | some bids =>
      if bids.length > 0 then
        [{ type := .entries, data := .ids bids, bookCatalogs := msg.bookCatalogs }]
      else []
    | none => []

/-- Embeds `loadChatHistoryIntoSession`: folds the persisted log into the
session's transcript and the chat's event queue, in log order. -/
def loadChatHistoryIntoSession (hist : List Turn) (queue : List MessageQueueItem) :
    List Message → List Turn × List MessageQueueItem
  | [] => (hist, queue)
  | msg :: rest =>
    loadChatHistoryIntoSession (hist ++ [replayMessage msg]) (queue ++ replayQueueItems msg) rest

/-- Embeds `createSession(chatId, entryId, catalogId, elviraClient, userId,
loadHistory)`: persists the chat record, installs an empty queue,
constructs the orchestrator (replaying history into it when requested)
and registers it. -/
def createSession (st : SysState) (now : String) (chatId : String)
    (entryId catalogId : Option String) (userId : String) (loadHistory : Bool) :
    SysState × Session :=
  let db1 := (createChatLocal st.db now chatId userId none).2
  let st1 : SysState :=
    { st with db := db1, messagesQueues := setA st.messagesQueues chatId [] }
  let session0 : Session :=
    { entryId := entryId, catalogId := catalogId, chatHistory := [],
      lastTokensUsed := 0, userId := userId }
  if loadHistory then
    let msgs := getFullChatHistoryLocal st1.db chatId
    let (hist, queue) := loadChatHistoryIntoSession session0.chatHistory [] msgs
    let session1 : Session := { session0 with chatHistory := hist }
    ({ st1 with
         messagesQueues := setA st1.messagesQueues chatId queue
         chatSessions := setA st1.chatSessions chatId session1 },
     session1)
  else
    ({ st1 with chatSessions := setA st1.chatSessions chatId session0 }, session0)

/-- Embeds `removeSession(chatId)`: deletes the live session and its queue and
purges the persisted log. -/
def removeSession (st : SysState) (chatId : String) : SysState :=
  { chatSessions := delA st.chatSessions chatId
    messagesQueues := delA st.messagesQueues chatId
    db := clearChatHistoryLocal st.db chatId }

/-- Embeds `terminateUserSessions(userId)`: removes every live session owned by
the user (iterating the `Object.entries` snapshot), returning the
terminated chat ids. -/
def terminateUserSessions (st : SysState) (userId : String) : SysState × List String :=
  let victims := (st.chatSessions.filter (fun p => p.2.userId == userId)).map (fun p => p.1)
  (victims.foldl (fun s cid => removeSession s cid) st, victims)

/-- Embeds `resumeSession(chatId, entryId, catalogId, elviraClient, userId)`:
returns the live session unchanged when one exists, otherwise creates one
with history loaded. -/
def resumeSession (st : SysState) (now : String) (chatId : String)
    (entryId catalogId : Option String) (userId : String) : SysState × Session :=
  match lookupA st.chatSessions chatId with
  | some s => (st, s)
  | none => createSession st now chatId entryId catalogId userId true

/-! ## Association list lemmas -/

/-- Rewriting values at key `k` leaves lookups at other keys unchanged. -/
theorem lookupA_map_set_ne {β : Type} (l : List (String × β)) (k k' : String) (v : β)
    (h : k' ≠ k) :
    lookupA (l.map (fun p => if p.1 = k then (k, v) else p)) k' = lookupA l k' := by
  induction l with
  | nil => rfl
  | cons p rest ih =>
    simp only [List.map_cons, lookupA]
    by_cases hp1 : p.1 = k
    · rw [if_pos hp1, if_neg (Ne.symm h), if_neg (fun hh => Ne.symm h (hp1.symm.trans hh))]
      exact ih
    · rw [if_neg hp1]
      by_cases hp1' : p.1 = k'
      · rw [if_pos hp1', if_pos hp1']
      · rw [if_neg hp1', if_neg hp1']
        exact ih

/-- Appending a fresh key leaves lookups at other keys unchanged. -/
theorem lookupA_append_ne {β : Type} (l : List (String × β)) (k k' : String) (v : β)
    (h : k' ≠ k) :
    lookupA (l ++ [(k, v)]) k' = lookupA l k' := by
  induction l with
  | nil => simp [lookupA, Ne.symm h]
  | cons p rest ih =>
    simp only [List.cons_append, lookupA]
    by_cases hp1' : p.1 = k'
    · rw [if_pos hp1', if_pos hp1']
    · rw [if_neg hp1', if_neg hp1']
      exact ih

/-- When the key is present, rewriting it via `setA`'s map yields the new
value on lookup. -/
theorem lookupA_map_set_self {β : Type} (l : List (String × β)) (k : String) (v : β) :
    (lookupA l k).isSome = true →
    lookupA (l.map (fun p => if p.1 = k then (k, v) else p)) k = some v := by
  induction l with
  | nil => intro h; simp [lookupA] at h
  | cons p rest ih =>
    intro hpres
    simp only [lookupA] at hpres
    simp only [List.map_cons, lookupA]
    by_cases hp1 : p.1 = k
    · rw [if_pos hp1, if_pos rfl]
    · rw [if_neg hp1] at hpres
      simp only [if_neg hp1]
      exact ih hpres

/-- When the key is absent, appending it makes lookup find it. -/
theorem lookupA_append_absent {β : Type} (l : List (String × β)) (k : String) (v : β) :
    (lookupA l k).isSome = false →
    lookupA (l ++ [(k, v)]) k = some v := by
  induction l with
  | nil => intro _; simp [lookupA]
  | cons p rest ih =>
    intro hpres
    simp only [lookupA] at hpres
    by_cases hp1 : p.1 = k
    · rw [if_pos hp1] at hpres
      simp at hpres
    · rw [if_neg hp1] at hpres
      simp only [List.cons_append, lookupA]
      rw [if_neg hp1]
      exact ih hpres

/-- After `setA`, looking up the assigned key yields the assigned value. -/
theorem lookupA_setA_self {β : Type} (l : List (String × β)) (k : String) (v : β) :
    lookupA (setA l k v) k = some v := by
  unfold setA
  split
  case isTrue hpres => exact lookupA_map_set_self l k v hpres
  case isFalse hpres => exact lookupA_append_absent l k v (Bool.of_not_eq_true hpres)

/-- After `setA` at key `k`, lookups at other keys are unchanged. -/
theorem lookupA_setA_ne {β : Type} (l : List (String × β)) (k k' : String) (v : β)
    (h : k' ≠ k) :
    lookupA (setA l k v) k' = lookupA l k' := by
  unfold setA
  split
  case isTrue hpres => exact lookupA_map_set_ne l k k' v h
  case isFalse hpres => exact lookupA_append_ne l k k' v h


/-! ## Theorems: focus mutation (C9), resumption no-op (C8) -/

/-- C9: `setEntryId` changes only the focus entry id: the transcript and
every other session field are untouched, the system instruction depends
only on the focus pair, and at registry level no event queue, storage
state or any session's transcript changes — no event is emitted. -/
theorem setEntryId_focus_only (s t : Session) (e : Option String)
    (st : SysState) (chatId : String) :
    ((setEntryId s e).chatHistory = s.chatHistory ∧
     (setEntryId s e).entryId = e ∧
     (setEntryId s e).catalogId = s.catalogId ∧
     (setEntryId s e).userId = s.userId ∧
     (setEntryId s e).lastTokensUsed = s.lastTokensUsed) ∧
    (s.entryId = t.entryId → s.catalogId = t.catalogId →
      getSystemPrompt s = getSystemPrompt t) ∧
    ((setSessionEntryId st chatId e).messagesQueues = st.messagesQueues ∧
     (setSessionEntryId st chatId e).db = st.db ∧
     ∀ cid, (getSession (setSessionEntryId st chatId e) cid).map Session.chatHistory =
       (getSession st cid).map Session.chatHistory) := by
  refine ⟨⟨rfl, rfl, rfl, rfl, rfl⟩, ?_, ?_⟩
  · intro h1 h2
    unfold getSystemPrompt
    rw [h1, h2]
  · unfold setSessionEntryId
    cases hs : lookupA st.chatSessions chatId with
    | none => exact ⟨rfl, rfl, fun _ => rfl⟩
    | some s0 =>
      refine ⟨rfl, rfl, fun cid => ?_⟩
      by_cases hc : cid = chatId
      · subst hc
        unfold getSession
        rw [lookupA_setA_self, hs]
        rfl
      · unfold getSession
        rw [lookupA_setA_ne _ _ _ _ hc]

/-- Witness for C9 at a concrete session and registry state. -/
theorem setEntryId_focus_only_witness :
    getSystemPrompt { entryId := some "e1", catalogId := some "cat", chatHistory := [],
                      lastTokensUsed := 0, userId := "u1" } =
      getSystemPrompt { entryId := some "e1", catalogId := some "cat",
                        chatHistory := [Turn.userTurn "hi"], lastTokensUsed := 7,
                        userId := "u2" } := by
  exact (setEntryId_focus_only
    { entryId := some "e1", catalogId := some "cat", chatHistory := [],
      lastTokensUsed := 0, userId := "u1" }
    { entryId := some "e1", catalogId := some "cat",
      chatHistory := [Turn.userTurn "hi"], lastTokensUsed := 7, userId := "u2" }
    none { chatSessions := [], messagesQueues := [], db := LocalStore.empty }
    "c1").2.1 rfl rfl

/-- A live demo session owned by user `u1`. -/
def demoSession : Session :=
  { entryId := none, catalogId := none, chatHistory := [Turn.userTurn "hi"],
    lastTokensUsed := 0, userId := "u1" }

/-- A registry state with one live session `c1` owned by `u1`. -/
def demoState : SysState :=
  { chatSessions := [("c1", demoSession)], messagesQueues := [("c1", [])],
    db := LocalStore.empty }

/-- C8: when a live session for the chat id already exists, `resumeSession`
returns it unchanged: the registry (hence the session's transcript and the
chat's event queue), the storage state, and the returned session are
exactly the live ones; no new orchestrator is constructed and no history
is replayed. -/
theorem resumeSession_existing_noop (st : SysState) (now chatId : String)
    (e c : Option String) (userId : String) (s : Session)
    (h : getSession st chatId = some s) :
    resumeSession st now chatId e c userId = (st, s) := by
  unfold resumeSession
  unfold getSession at h
  rw [h]

/-- Witness for C8 at the concrete one-session registry. -/
theorem resumeSession_existing_noop_witness :
    resumeSession demoState "2024-01-01T00:00:00Z" "c1" (some "e9") (some "cat9") "u1" =
      (demoState, demoSession) :=
  resumeSession_existing_noop demoState "2024-01-01T00:00:00Z" "c1" (some "e9") (some "cat9")
    "u1" demoSession rfl

/-! ## Theorem: events against a terminated session (C4)

The spec requires an event produced after `terminateForUser` to be a
harmless no-op; in the source every listener dereferences
`messagesQueues[chatId]` without a guard, so once the queue is deleted the
push raises a `TypeError` instead. -/

/-- C4 (divergence witness): after `terminateUserSessions "u1"` removes
session `c1`, a message, entries or chunk event produced by the in-flight
call raises a `TypeError` (modelled as the `Except.error` result of the
listener step) rather than being a silent no-op. -/
theorem terminated_session_event_throws :
    hasSession (terminateUserSessions demoState "u1").1 "c1" = false ∧
    (terminateUserSessions demoState "u1").2 = ["c1"] ∧
    messageListener (terminateUserSessions demoState "u1").1 "c1" none "u1" "m2"
        "2024-01-01T00:00:01Z" "hello" none =
      .error "TypeError: Cannot read properties of undefined (reading \x27push\x27)" ∧
    displayBooksListener (terminateUserSessions demoState "u1").1 "c1" none "u1" "m3"
        "2024-01-01T00:00:02Z" ["b1", "b2"] (some [("b1", "cat1"), ("b2", "cat2")]) =
      .error "TypeError: Cannot read properties of undefined (reading \x27push\x27)" ∧
    chunkListener (terminateUserSessions demoState "u1").1 "c1" "msg_1" "chunk" =
      .error "TypeError: Cannot read properties of undefined (reading \x27push\x27)" :=
  ⟨rfl, rfl, rfl, rfl, rfl⟩

/-! ## Theorems: history replay through resume (C3) -/

/-- A provider-compatible assistant message id (the `msg_` discriminator
required of replayed assistant turns). -/
def providerCompatibleId (i : String) : Prop := strStartsWith i "msg_" = true

/-- How one persisted message must be reflected by its replayed turn: user
messages become user turns with the stored text; agent messages become
assistant turns carrying a provider-compatible id — the stored `msg_id`
when it starts with `msg_`, the synthesized one otherwise. -/
def ReplayTurnSpec (m : Message) (t : Turn) : Prop :=
  match m.sender, t with
  | .user, .userTurn text => text = m.text
  | .agent, .assistantTurn i _ =>
    providerCompatibleId i ∧
    (match m.msg_id with
     | some mid =>
       if mid = "" ∨ ¬ strStartsWith mid "msg_" then i = synthesizedId m else i = mid
     | none => i = synthesizedId m)
  | _, _ => False

/-- A list starts with itself followed by anything. -/
theorem matchesAt_append (p l : List Char) : matchesAt p (p ++ l) = true := by
  induction p with
  | nil => rfl
  | cons c cs ih => simp [matchesAt, ih]

/-- Synthesized ids are provider-compatible. -/
theorem synthesizedId_compatible (m : Message) : providerCompatibleId (synthesizedId m) := by
  unfold providerCompatibleId synthesizedId strStartsWith
  rw [String.data_append]
  exact matchesAt_append _ _

/-- Each replayed turn satisfies the per-message replay contract. -/
theorem replayMessage_spec (m : Message) : ReplayTurnSpec m (replayMessage m) := by
  unfold ReplayTurnSpec replayMessage replayAssistantId
  cases hs : m.sender with
  | user => rfl
  | agent =>
    cases hm : m.msg_id with
    | none => exact ⟨synthesizedId_compatible m, rfl⟩
    | some mid =>
      dsimp only
      split_ifs with hid
      · exact ⟨synthesizedId_compatible m, rfl⟩
      · have hstart : strStartsWith mid "msg_" = true := by
          rcases not_or.mp hid with ⟨-, h2⟩
          simpa using h2
        exact ⟨hstart, rfl⟩

/-- The replay fold produces exactly the mapped log after the accumulator. -/
theorem loadChatHistory_fst (msgs : List Message) (hist : List Turn)
    (queue : List MessageQueueItem) :
    (loadChatHistoryIntoSession hist queue msgs).1 = hist ++ msgs.map replayMessage := by
  induction msgs generalizing hist queue with
  | nil => simp [loadChatHistoryIntoSession]
  | cons m rest ih => simp [loadChatHistoryIntoSession, ih]

/-- C3: replaying a persisted log through `resumeSession` (when no live
session exists) produces a transcript with exactly one turn per logged
message, in log order, each user message a user turn and each agent
message an assistant turn with a valid provider-compatible id — the
stored `msg_id` when it starts with `msg_`, a synthesized one otherwise. -/
theorem resume_replays_log (st : SysState) (now chatId : String)
    (e c : Option String) (userId : String)
    (h : getSession st chatId = none) :
    ((resumeSession st now chatId e c userId).2.chatHistory).length =
      (getFullChatHistoryLocal (createChatLocal st.db now chatId userId none).2 chatId).length ∧
    List.Forall₂ ReplayTurnSpec
      (getFullChatHistoryLocal (createChatLocal st.db now chatId userId none).2 chatId)
      ((resumeSession st now chatId e c userId).2.chatHistory) := by
  unfold resumeSession
  unfold getSession at h
  rw [h]
  unfold createSession
  simp only [if_true, ite_true]
  rw [loadChatHistory_fst]
  simp only [List.nil_append]
  constructor
  · exact List.length_map _ _
  · exact List.forall₂_map_right_iff.mpr
      (List.forall₂_same.mpr (fun a _ => replayMessage_spec a))

/-- A store already holding a two-message log for chat `c1`. -/
def demoDb : LocalStore :=
  { chatsMetadata := fun k =>
      if k = "c1" then some ⟨"c1", "u1", "2024-01-01T00:00:00Z", none, 2, 0⟩ else none
    chats := fun k =>
      if k = "c1" then
        some [{ id := "a1", chatId := "c1", sender := .user, text := "hello",
                timestamp := "2024-01-01T00:00:01Z" },
              { id := "a2-b", chatId := "c1", sender := .agent, text := "hi there",
                timestamp := "2024-01-01T00:00:02Z", msg_id := some "bogus" }]
      else none }

/-- Witness for C3: resuming chat `c1` from the two-message store yields a
two-turn transcript satisfying the replay contract. -/
theorem resume_replays_log_witness :
    (((resumeSession { chatSessions := [], messagesQueues := [], db := demoDb }
        "2024-01-02T00:00:00Z" "c1" none none "u1").2.chatHistory).length = 2) ∧
    List.Forall₂ ReplayTurnSpec
      (getFullChatHistoryLocal
        (createChatLocal demoDb "2024-01-02T00:00:00Z" "c1" "u1" none).2 "c1")
      ((resumeSession { chatSessions := [], messagesQueues := [], db := demoDb }
        "2024-01-02T00:00:00Z" "c1" none none "u1").2.chatHistory) := by
  have h := resume_replays_log { chatSessions := [], messagesQueues := [], db := demoDb }
    "2024-01-02T00:00:00Z" "c1" none none "u1" rfl
  exact ⟨h.1.trans (by rfl), h.2⟩

/-! ## Tool dispatch (`functionHandler.ts`)

JS values flowing through tool calls are embedded as a small JSON value
type (with an `undefined` constructor for JS `undefined`); `JSON.parse` and
the catalog client are external capabilities, embedded as `Except`-valued
functions of an environment (`JSON.parse` throws exactly on malformed
input). `JSON.stringify` is embedded without character escaping (the
serialized payloads carry no characters needing escapes). -/

/-- A JS value, as far as tool dispatch observes it. -/
inductive Json where
  | null
  | undefined
  | bool (b : Bool)
  | num (n : Int)
  | str (s : String)
  | arr (elems : List Json)
  | obj (fields : List (String × Json))

/-- JS `x === undefined`. -/
def Json.isUndefined : Json → Bool
  | .undefined => true
  | _ => false

mutual

/-- Embeds `JSON.stringify` (numbers as integers, no escaping). -/
def Json.stringify : Json → String
  | .null => "null"
  | .undefined => "undefined"
  | .bool true => "true"
  | .bool false => "false"
  | .num n => toString n
  | .str s => "\"" ++ s ++ "\""
  | .arr es => "[" ++ Json.stringifyList es ++ "]"
  | .obj fs => "\x7b" ++ Json.stringifyFields fs ++ "\x7d"

/-- Array elements, comma separated. -/
def Json.stringifyList : List Json → String
  | [] => ""
  | [j] => Json.stringify j
  | j :: rest => Json.stringify j ++ "," ++ Json.stringifyList rest

/-- Object fields, comma separated. -/
def Json.stringifyFields : List (String × Json) → String
  | [] => ""
  | [(k, v)] => "\"" ++ k ++ "\":" ++ Json.stringify v
  | (k, v) :: rest => "\"" ++ k ++ "\":" ++ Json.stringify v ++ "," ++ Json.stringifyFields rest

end

/-- JS truthiness. -/
def Json.truthy : Json → Bool
  | .null => false
  | .undefined => false
  | .bool b => b
  | .num n => decide (n ≠ 0)
  | .str s => decide (s ≠ "")
  | .arr _ => true
  | .obj _ => true

/-- JS member access `j.k` (undefined when absent or not an object). -/
def Json.getField (j : Json) (k : String) : Json :=
  match j with
  | .obj fs =>
    match lookupA fs k with
    | some v => v
    | none => .undefined
  | _ => .undefined

/-- A `ResponseFunctionToolCall` as consumed by `handleFunctionCalls`. -/
structure FunctionToolCall where
  name : String
  call_id : String
  arguments : String
deriving DecidableEq, Repr

/-- A `function_call_output` transcript item. -/
structure FunctionCallOutput where
  call_id : String
  output : String
deriving DecidableEq, Repr

/-- External capabilities reached from tool dispatch: `JSON.parse`, the
display-books listener wired by the registry, and the catalog client's
search and detail calls. Each may throw, carrying a JS error message. -/
structure ToolEnv where
  parseArgs : String → Except String Json
  displayBooksListener : Json → Except String Unit
  getEntries : Json → Json → Option Json → Except String Json
  getEntryDetail : Json → Except String Json

/-- Embeds `displayBooks(client, options)`: emits the entries event and returns a
success acknowledgement. -/
def displayBooks (env : ToolEnv) (options : Json) : Except String Json :=
  (env.displayBooksListener (options.getField "ids")).map
    (fun _ => Json.obj [("success", Json.bool true)])

/-- Embeds `extractFilters(options)`: copies each truthy filter field (and a
defined `config__readium_enabled`), returning `undefined` when no filter
is set. -/
def extractFilters (options : Json) : Option Json :=
  let addIf (acc : List (String × Json)) (name : String) : List (String × Json) :=
    if (options.getField name).truthy then acc ++ [(name, options.getField name)] else acc
  let acc := addIf [] "title"
  let acc := addIf acc "summary"
  let acc := addIf acc "category_term"
  let acc := addIf acc "author"
  let acc := addIf acc "language_code"
  let acc := addIf acc "published_at__gte"
  let acc := addIf acc "published_at__lte"
  let acc :=
    if !(options.getField "config__readium_enabled").isUndefined then
      acc ++ [("config__readium_enabled", options.getField "config__readium_enabled")]
    else acc
  let acc := addIf acc "query"
  if acc.length > 0 then some (Json.obj acc) else none

/-- The `switch (item.name)` body of `handleFunctionCalls` (the part
guarded by `try`). -/
def execTool (env : ToolEnv) (item : FunctionToolCall) (options : Json) : Except String Json :=
  match item.name with
  | "displayBooks" => displayBooks env options
  | "getEntries" =>
    env.getEntries (options.getField "page") (options.getField "limit") (extractFilters options)
  | "getEntryDetails" => env.getEntryDetail (options.getField "id")
  | _ => .ok (Json.obj [("success", Json.bool false), ("error", Json.str "Unknown function call")])

/-- The JS fallback applied to a falsy result before stringification. -/
def jsOrDefault (result : Json) : Json :=
  if result.truthy then result
  else Json.obj [("success", Json.bool false), ("error", Json.str "Unknown error occurred")]

/-- The structured failure payload pushed by the `catch` branch. -/
def failurePayload (msg : String) : Json :=
  Json.obj [("success", Json.bool false), ("error", Json.str msg)]

/-- One iteration's pushed output: the stringified result on success, the
stringified failure payload when the guarded execution throws. -/
def callOutput (env : ToolEnv) (item : FunctionToolCall) (options : Json) : FunctionCallOutput :=
  match execTool env item options with
  | .ok result => ⟨item.call_id, (jsOrDefault result).stringify⟩
  | .error e => ⟨item.call_id, (failurePayload e).stringify⟩

/-- Every pushed output carries its call's `call_id`. -/
theorem callOutput_call_id (env : ToolEnv) (item : FunctionToolCall) (options : Json) :
    (callOutput env item options).call_id = item.call_id := by
  unfold callOutput
  cases execTool env item options <;> rfl

/-- Embeds `handleFunctionCalls(client, functionCallStack)`: per call, parses the
argument string (outside the `try`), then runs the guarded dispatch. A
parse throw propagates, discarding the output array built so far. -/
def handleFunctionCalls (env : ToolEnv) : List FunctionToolCall →
    Except String (List FunctionCallOutput)
  | [] => .ok []
  | item :: rest =>
    match env.parseArgs item.arguments with
    | .error e => .error e
    | .ok options =>
      (handleFunctionCalls env rest).map (fun outs => callOutput env item options :: outs)

/-! ## Theorems: tool failure containment (C1) -/

/-- A concrete environment: `JSON.parse` accepts exactly one well-formed
argument string, the catalog detail call fails. -/
def envJsonStrict : ToolEnv :=
  { parseArgs := fun s =>
      if s = "\x7b\"ids\":[\"a\"]\x7d" then .ok (Json.obj [("ids", Json.arr [Json.str "a"])])
      else .error ("Unexpected token in JSON: " ++ s)
    displayBooksListener := fun _ => .ok ()
    getEntries := fun _ _ _ => .ok (Json.obj [("items", Json.arr [])])
    getEntryDetail := fun _ => .error "Request failed with status code 404" }

/-- C1 counterexample: a tool call whose argument string is not valid JSON
makes `JSON.parse` (evaluated outside the `try`) throw out of
`handleFunctionCalls`: no tool-output turn is produced for it, and a batch
with an earlier well-formed call loses that call's output too. -/
theorem handleFunctionCalls_malformed_args_throw :
    handleFunctionCalls envJsonStrict
      [{ name := "displayBooks", call_id := "call_1", arguments := "not json" }] =
      .error "Unexpected token in JSON: not json" ∧
    handleFunctionCalls envJsonStrict
      [{ name := "getEntryDetails", call_id := "call_0",
         arguments := "\x7b\"ids\":[\"a\"]\x7d" },
       { name := "displayBooks", call_id := "call_1", arguments := "not json" }] =
      .error "Unexpected token in JSON: not json" :=
  ⟨rfl, rfl⟩

/-- C1 (amended): for every batch in which each call's argument string
parses as JSON, `handleFunctionCalls` returns exactly one tool-output turn
per call, in order, with the matching `call_id`; any call whose guarded
execution throws yields the stringified structured failure payload, and no
exception propagates. -/
theorem handleFunctionCalls_contained (env : ToolEnv) (stack : List FunctionToolCall)
    (h : ∀ c ∈ stack, ∃ options, env.parseArgs c.arguments = .ok options) :
    ∃ outs, handleFunctionCalls env stack = .ok outs ∧
      List.Forall₂ (fun (c : FunctionToolCall) (o : FunctionCallOutput) =>
        o.call_id = c.call_id ∧
        ∀ options e, env.parseArgs c.arguments = .ok options →
          execTool env c options = .error e →
          o.output = (failurePayload e).stringify) stack outs := by
  induction stack with
  | nil => exact ⟨[], rfl, List.Forall₂.nil⟩
  | cons c rest ih =>
    obtain ⟨opts, hopts⟩ := h c (List.mem_cons_self c rest)
    obtain ⟨outs, houts, hrel⟩ := ih (fun d hd => h d (List.mem_cons_of_mem c hd))
    refine ⟨callOutput env c opts :: outs, ?_, ?_⟩
    · unfold handleFunctionCalls
      rw [hopts, houts]
      rfl
    · refine List.Forall₂.cons ⟨callOutput_call_id env c opts, ?_⟩ hrel
      intro options e hpo hexec
      rw [hopts] at hpo
      cases hpo
      unfold callOutput
      rw [hexec]

/-- Witness for C1's amended statement: a one-call batch whose catalog
detail call throws still yields a structured failure output. -/
theorem handleFunctionCalls_contained_witness :
    ∃ outs, handleFunctionCalls envJsonStrict
        [{ name := "getEntryDetails", call_id := "call_7",
           arguments := "\x7b\"ids\":[\"a\"]\x7d" }] = .ok outs ∧
      List.Forall₂ (fun (c : FunctionToolCall) (o : FunctionCallOutput) =>
        o.call_id = c.call_id ∧
        ∀ options e, envJsonStrict.parseArgs c.arguments = .ok options →
          execTool envJsonStrict c options = .error e →
          o.output = (failurePayload e).stringify)
        [{ name := "getEntryDetails", call_id := "call_7",
           arguments := "\x7b\"ids\":[\"a\"]\x7d" }] outs := by
  apply handleFunctionCalls_contained
  intro c hc
  rw [List.mem_singleton] at hc
  subst hc
  exact ⟨Json.obj [("ids", Json.arr [Json.str "a"])], rfl⟩

end Elvira
